import Mathlib

/-!
Verification development for the `yaf` template renderer
(`src/main.rs`, `src/fetch.rs`).

Strings are embedded as `List Char` (Rust iterates `line.chars()`, so one
`Char` per Unicode scalar value).  Effects of the ambient operating system
(environment variables, shell execution, the fact providers of `fetch.rs`)
are embedded as an explicit `Sys` record that is threaded through the
functions which consult the OS; the functions themselves are direct
translations of the Rust source.
-/

/-- Error type of `main.rs` (`enum MyError`).  `FileRead` abstracts the
wrapped `io::Error` payload, which no claim inspects. -/
inductive MyError where
  | FileRead : MyError
  | CommandExecution : List Char → MyError
  | EnvVariable : List Char → MyError
  | NestedBrace : MyError
  | UnmatchedBrace : MyError
  | UnclosedBrace : MyError
  | UnknownStyle : List Char → MyError
  | UnknownColor : List Char → MyError
deriving DecidableEq, Repr

/-- Ambient operating-system state consulted by the renderer.
`envVars` models `std::env::var` (`none` = unset or non-unicode);
`sh` models executing `/bin/sh -c <cmd>` and capturing the raw
(stdout, stderr) pair, with `none` modelling a spawn failure
(`Command::output()` returning `Err`); the remaining fields are the
strings returned by the `fetch.rs` providers `get_username`,
`get_hostname`, `get_distro`, `get_kernel`. -/
structure Sys where
  envVars : List Char → Option (List Char)
  sh : List Char → Option (List Char × List Char)
  username : List Char
  hostname : List Char
  distro : List Char
  kernel : List Char

/-- Rust `str::trim_end` (trailing whitespace removed).  Lean's
`Char.isWhitespace` covers the ASCII whitespace relevant here; Rust uses
the full Unicode White_Space class. -/
def trimEnd (s : List Char) : List Char :=
  (s.reverse.dropWhile Char.isWhitespace).reverse

/-- Rust `str::trim_start`. -/
def trimStart (s : List Char) : List Char :=
  s.dropWhile Char.isWhitespace

/-- Rust `str::trim` (both ends). -/
def trim (s : List Char) : List Char :=
  trimEnd (trimStart s)

/-- Rust `<u8 as FromStr>::from_str`: an optional leading `+`, then one or
more ASCII digits, and the value must fit in 0..=255. -/
def parse_u8 (s : List Char) : Option Nat :=
  let t := match s with
    | '+' :: rest => rest
    | _ => s
  if t = [] then none
  else if t.all Char.isDigit then
    let n := t.foldl (fun a c => a * 10 + (c.toNat - '0'.toNat)) 0
    if n ≤ 255 then some n else none
  else none

/-- Rust `str::replace(from, to)`: replace every non-overlapping match of
`pat`, scanning left to right.  `fuel` (instantiated with the length of
the string in `replaceAll`) makes the recursion structural; it never runs
out because each step consumes at least one character. -/
def replaceAllGo (pat rep : List Char) : Nat → List Char → List Char
  | 0, s => s
  | fuel + 1, s =>
    match s with
    | [] => []
    | c :: rest =>
      if pat ≠ [] ∧ pat.isPrefixOf s then
        rep ++ replaceAllGo pat rep fuel (s.drop pat.length)
      else
        c :: replaceAllGo pat rep fuel rest

/-- Rust `str::replace` on `s`, replacing `pat` by `rep`. -/
def replaceAll (pat rep s : List Char) : List Char :=
  replaceAllGo pat rep s.length s

/-- The `phf_map` `BUILTIN_VARS` of `main.rs` (lines 19-27). -/
def BUILTIN_VARS (key : List Char) : Option (List Char) :=
  if key = "color".data then some "\x1B[38;5;\x7b\x7dm".data
  else if key = "bold".data then some "\x1B[1m".data
  else if key = "italic".data then some "\x1B[3m".data
  else if key = "underline".data then some "\x1B[4m".data
  else if key = "reset".data then some "\x1B[0m".data
  else if key = "username".data then some "unknown".data
  else if key = "hostname".data then some "unknown".data
  else none

/-- `get_env` of `main.rs` (lines 227-229). -/
def get_env (sys : Sys) (key : List Char) : Except MyError (List Char) :=
  match sys.envVars key with
  | some v => .ok v
  | none => .error (.EnvVariable key)

/-- `run_sh` of `main.rs` (lines 210-225): run the command through
`/bin/sh -c`, trim both captured streams at the right end, fail with
`CommandExecution` when the trimmed stderr is non-empty, otherwise
return the trimmed stdout.  A spawn failure (`sys.sh` = `none`) is the
`?` on `Command::output()`, an `io::Error` converted to `FileRead`. -/
def run_sh (sys : Sys) (command : List Char) : Except MyError (List Char) :=
  match sys.sh command with
  | none => .error .FileRead
  | some (out, err) =>
    let stdout := trimEnd out
    let stderr := trimEnd err
    if stderr ≠ [] then .error (.CommandExecution stderr)
    else .ok stdout

/-- `replace_builtin_var` of `main.rs` (lines 176-208).  The Rust `match`
on `key` becomes a chain of equality tests; the `color` arm takes the
suffix after `"color"`, trims it, parses it as a `u8` and splices it into
the `color` format string of `BUILTIN_VARS`. -/
def replace_builtin_var (sys : Sys) (key : List Char) : Except MyError (List Char) :=
  if key = "username".data then .ok sys.username
  else if key = "hostname".data then .ok sys.hostname
  else if key = "distro".data then .ok sys.distro
  else if key = "kernel".data then .ok sys.kernel
  else if "color".data.isPrefixOf key then
    let suffix := trim (key.drop "color".data.length)
    match parse_u8 suffix with
    | some color =>
      match BUILTIN_VARS "color".data with
      | some format_string => .ok (replaceAll "\x7b\x7d".data (Nat.repr color).data format_string)
      | none => .error (.UnknownColor suffix)
    | none => .error (.UnknownColor suffix)
  else
    match BUILTIN_VARS key with
    | some value => .ok value
    | none => .error (.UnknownStyle key)

/-- Per-line parser state of `parse_line` (`main.rs` lines 110-113). -/
structure PState where
  buffer : List Char
  output : List Char
  inside_braces : Bool
  escape_next : Bool
deriving DecidableEq, Repr

/-- One iteration of the character loop of `parse_line`
(`main.rs` lines 115-166). -/
def parse_line_step (sys : Sys) (st : PState) (c : Char) : Except MyError PState :=
  if st.escape_next then
    if c = '\x7b' ∨ c = '\x7d' ∨ c = '\\' then
      .ok { st with buffer := st.buffer ++ [c], escape_next := false }
    else
      .ok { st with buffer := st.buffer ++ ['\\', c], escape_next := false }
  else if c = '\\' then
    if st.inside_braces then
      .ok { st with escape_next := true }
    else
      .ok { st with output := st.output ++ ['\\'] }
  else if c = '\x7b' then
    if st.inside_braces then .error .NestedBrace
    else .ok { st with inside_braces := true, buffer := [] }
  else if c = '\x7d' then
    if st.inside_braces = false then .error .UnmatchedBrace
    else
      let st1 := { st with inside_braces := false }
      if st1.buffer.head? = some '$' then
        match get_env sys (st1.buffer.drop 1) with
        | .error e => .error e
        | .ok v => .ok { st1 with output := st1.output ++ v }
      else if st1.buffer.head? = some '@' then
        match replace_builtin_var sys (st1.buffer.drop 1) with
        | .error e => .error e
        | .ok v => .ok { st1 with output := st1.output ++ v }
      else
        match run_sh sys st1.buffer with
        | .error e => .error e
        | .ok v => .ok { st1 with output := st1.output ++ v }
  else
    if st.inside_braces then
      .ok { st with buffer := st.buffer ++ [c] }
    else
      .ok { st with output := st.output ++ [c] }

/-- The character loop of `parse_line`, threading the state through the
characters of the line and propagating the first error. -/
def parse_line_loop (sys : Sys) : List Char → PState → Except MyError PState
  | [], st => .ok st
  | c :: cs, st =>
    match parse_line_step sys st c with
    | .error e => .error e
    | .ok st2 => parse_line_loop sys cs st2

/-- `parse_line` of `main.rs` (lines 109-174): run the loop from the empty
state, reject a line that ends inside braces, and append one newline. -/
def parse_line (sys : Sys) (line : List Char) : Except MyError (List Char) :=
  match parse_line_loop sys line ⟨[], [], false, false⟩ with
  | .error e => .error e
  | .ok st =>
    if st.inside_braces then .error .UnclosedBrace
    else .ok (st.output ++ ['\n'])

/-- `get_uptime` of `fetch.rs` (lines 146-201), with the `/proc/uptime`
read and the `f64` parse abstracted to the whole-seconds value
`uptime_seconds` (the result of `Duration::as_secs`); the function here is
the rendering of that value (source lines 168-200). -/
def get_uptime (uptime_seconds : Nat) : List Char :=
  let days := uptime_seconds / 86400
  let hours := uptime_seconds % 86400 / 3600
  let minutes := uptime_seconds % 3600 / 60
  let u0 : List Char := []
  let u1 :=
    if days > 0 then
      u0 ++ (Nat.repr days).data ++ " day".data ++ (if days > 1 then "s".data else [])
    else u0
  let u2 :=
    if hours > 0 then
      (if u1 ≠ [] then u1 ++ ", ".data else u1) ++ (Nat.repr hours).data ++ " hour".data ++
        (if hours > 1 then "s".data else [])
    else u1
  let u3 :=
    if minutes > 0 then
      (if u2 ≠ [] then u2 ++ ", ".data else u2) ++ (Nat.repr minutes).data ++ " minute".data ++
        (if minutes > 1 then "s".data else [])
    else u2
  if u3 = [] then "0 minutes".data else u3

/-- Specification-side description for claim C9: the pluralised
day/hour/minute components of an uptime, keeping only the nonzero ones. -/
def uptimeParts (uptime_seconds : Nat) : List (List Char) :=
  let days := uptime_seconds / 86400
  let hours := uptime_seconds % 86400 / 3600
  let minutes := uptime_seconds % 3600 / 60
  (if days > 0 then [(Nat.repr days).data ++ " day".data ++ (if days > 1 then "s".data else [])] else []) ++
  (if hours > 0 then [(Nat.repr hours).data ++ " hour".data ++ (if hours > 1 then "s".data else [])] else []) ++
  (if minutes > 0 then [(Nat.repr minutes).data ++ " minute".data ++ (if minutes > 1 then "s".data else [])] else [])

/-- Specification-side description for claim C9: joining components with
the separator ", ". -/
def joinCommaSep : List (List Char) → List Char
  | [] => []
  | [x] => x
  | x :: xs => x ++ ", ".data ++ joinCommaSep xs

/-- Concrete operating-system state used for witnesses and
counterexamples: the command `echo hi` prints `hi`, the commented-out
command `#echo hi` prints nothing, the empty command prints nothing, and
every other command writes a bare newline to stderr. -/
def sysA : Sys where
  envVars := fun _ => none
  sh := fun c =>
    if c = "#echo hi".data then some ("".data, "".data)
    else if c = "echo hi".data then some ("hi\n".data, "".data)
    else if c = "".data then some ("".data, "".data)
    else some ("out".data, "\n".data)
  username := "alice".data
  hostname := "box".data
  distro := "distro".data
  kernel := "6.1.0".data

/-- Concrete operating-system state in which every shell command prints
`hi` and a newline on stdout and nothing on stderr. -/
def sysB : Sys where
  envVars := fun _ => none
  sh := fun _ => some ("hi\n".data, "".data)
  username := "alice".data
  hostname := "box".data
  distro := "distro".data
  kernel := "6.1.0".data

theorem isPrefixOf_append_self (p s : List Char) : p.isPrefixOf (p ++ s) = true := by
  induction p with
  | nil => simp
  | cons a as ih => simp [List.isPrefixOf_cons₂, ih]

theorem drop_len_append (p s : List Char) : (p ++ s).drop p.length = s := by
  induction p with
  | nil => rfl
  | cons a as ih => simp [ih]

/-- Helper: on a key of the form `color` followed by a suffix,
`replace_builtin_var` trims the suffix, parses it as a `u8`, and either
splices the parsed number into the foreground-color escape or fails with
`UnknownColor` carrying the trimmed suffix. -/
theorem replace_builtin_var_color_eq (sys : Sys) (s : List Char) :
    replace_builtin_var sys ("color".data ++ s) =
      (match parse_u8 (trim s) with
       | some color => .ok ("\x1B[38;5;".data ++ (Nat.repr color).data ++ "m".data)
       | none => .error (.UnknownColor (trim s))) := by
  have h1 : ("color".data ++ s) ≠ "username".data := by
    intro h; injection h with ha _; exact absurd ha (by decide)
  have h2 : ("color".data ++ s) ≠ "hostname".data := by
    intro h; injection h with ha _; exact absurd ha (by decide)
  have h3 : ("color".data ++ s) ≠ "distro".data := by
    intro h; injection h with ha _; exact absurd ha (by decide)
  have h4 : ("color".data ++ s) ≠ "kernel".data := by
    intro h; injection h with ha _; exact absurd ha (by decide)
  unfold replace_builtin_var
  rw [if_neg h1, if_neg h2, if_neg h3, if_neg h4, if_pos (isPrefixOf_append_self "color".data s),
    drop_len_append]
  cases hp : parse_u8 (trim s) with
  | none => simp only [hp]
  | some color => simp only [hp]; rfl

-- Helper: the decimal rendering of any number between 0 and 255 parses
-- back to that number under the trimming-and-u8-parse of the color arm.
set_option maxRecDepth 100000 in
theorem parse_u8_repr_le (n : Nat) (h : n ≤ 255) :
    parse_u8 (trim (Nat.repr n).data) = some n := by
  revert h
  revert n
  decide

/-- Helper: over characters that are neither an open brace nor a close
brace, the loop of `parse_line` started outside braces copies every
character (including backslashes) verbatim to the output. -/
theorem parse_line_loop_no_braces (sys : Sys) (cs : List Char) :
    ∀ st : PState, st.inside_braces = false → st.escape_next = false →
      (∀ c ∈ cs, c ≠ '\x7b' ∧ c ≠ '\x7d') →
      parse_line_loop sys cs st = .ok { st with output := st.output ++ cs } := by
  induction cs with
  | nil => intro st _ _ _; simp [parse_line_loop]
  | cons c cs ih =>
    intro st h1 h2 hc
    have hcb := hc c (List.mem_cons_self c cs)
    have hrest : ∀ x ∈ cs, x ≠ '\x7b' ∧ x ≠ '\x7d' := fun x hx => hc x (List.mem_cons_of_mem c hx)
    by_cases hbs : c = '\\'
    · subst hbs
      simp only [parse_line_loop, parse_line_step, h1, h2, if_true, if_false,
        Bool.false_eq_true, ite_false, ite_true]
      rw [ih _ rfl rfl hrest]
      simp
    · simp only [parse_line_loop, parse_line_step, h1, h2, hbs, hcb.1, hcb.2,
        Bool.false_eq_true, ite_false, ite_true, if_neg]
      rw [ih _ rfl rfl hrest]
      simp

/-- C1: an unescaped open brace read while already inside a placeholder
fails with `NestedBrace`; an unescaped close brace read while not inside a
placeholder fails with `UnmatchedBrace`; a line whose character loop ends
still inside a placeholder fails with `UnclosedBrace`; and the single
open-brace line, the single close-brace line, and the line of two open
braces followed by two close braces fail with the corresponding error. -/
theorem C1_brace_errors (sys : Sys) (st : PState) (line : List Char) :
    (st.escape_next = false → st.inside_braces = true →
      parse_line_step sys st '\x7b' = .error .NestedBrace)
  ∧ (st.escape_next = false → st.inside_braces = false →
      parse_line_step sys st '\x7d' = .error .UnmatchedBrace)
  ∧ (∀ stEnd : PState, parse_line_loop sys line ⟨[], [], false, false⟩ = .ok stEnd →
      stEnd.inside_braces = true → parse_line sys line = .error .UnclosedBrace)
  ∧ parse_line sys ['\x7b'] = .error .UnclosedBrace
  ∧ parse_line sys ['\x7d'] = .error .UnmatchedBrace
  ∧ parse_line sys "\x7b\x7b\x7d\x7d".data = .error .NestedBrace := by
  refine ⟨?_, ?_, ?_, rfl, rfl, rfl⟩
  · intro h1 h2; simp [parse_line_step, h1, h2]
  · intro h1 h2; simp [parse_line_step, h1, h2]
  · intro stEnd hloop hin
    simp [parse_line, hloop, hin]

/-- Witness for C1 at concrete states and lines. -/
theorem C1_brace_errors_witness :
    parse_line_step sysA ⟨[], [], true, false⟩ '\x7b' = .error .NestedBrace
  ∧ parse_line_step sysA ⟨[], [], false, false⟩ '\x7d' = .error .UnmatchedBrace
  ∧ parse_line sysA "\x7ba".data = .error .UnclosedBrace :=
  ⟨(C1_brace_errors sysA ⟨[], [], true, false⟩ []).1 rfl rfl,
   (C1_brace_errors sysA ⟨[], [], false, false⟩ []).2.1 rfl rfl,
   (C1_brace_errors sysA ⟨[], [], false, false⟩ "\x7ba".data).2.2.1
     ⟨"a".data, [], true, false⟩ rfl rfl⟩

/-- C2: under a pending escape (which only arises inside a placeholder), an
open brace, close brace or backslash is appended alone to the placeholder
body, any other character is appended together with the preserved
backslash, a backslash outside braces goes straight to the output, and the
line consisting of pre, backslash, an at-reset placeholder and post
renders to pre, a literal backslash, the reset escape, post and a
newline. -/
theorem C2_escape_rules (sys : Sys) (st : PState) (c : Char) :
    (st.escape_next = true → (c = '\x7b' ∨ c = '\x7d' ∨ c = '\\') →
      parse_line_step sys st c = .ok { st with buffer := st.buffer ++ [c], escape_next := false })
  ∧ (st.escape_next = true → ¬(c = '\x7b' ∨ c = '\x7d' ∨ c = '\\') →
      parse_line_step sys st c = .ok { st with buffer := st.buffer ++ ['\\', c], escape_next := false })
  ∧ (st.escape_next = false → st.inside_braces = false →
      parse_line_step sys st '\\' = .ok { st with output := st.output ++ ['\\'] })
  ∧ parse_line sys "pre\\\x7b@reset\x7dpost".data = .ok "pre\\\x1B[0mpost\n".data := by
  refine ⟨?_, ?_, ?_, rfl⟩
  · intro h1 h2; simp [parse_line_step, h1, h2]
  · intro h1 h2; simp [parse_line_step, h1, h2]
  · intro h1 h2; simp [parse_line_step, h1, h2]

/-- Witness for C2 at concrete states and characters. -/
theorem C2_escape_rules_witness :
    parse_line_step sysA ⟨[], [], true, true⟩ '\x7d' = .ok ⟨['\x7d'], [], true, false⟩
  ∧ parse_line_step sysA ⟨[], [], true, true⟩ 'n' = .ok ⟨['\\', 'n'], [], true, false⟩
  ∧ parse_line_step sysA ⟨[], [], false, false⟩ '\\' = .ok ⟨[], ['\\'], false, false⟩ :=
  ⟨(C2_escape_rules sysA ⟨[], [], true, true⟩ '\x7d').1 rfl (Or.inr (Or.inl rfl)),
   (C2_escape_rules sysA ⟨[], [], true, true⟩ 'n').2.1 rfl (by decide),
   (C2_escape_rules sysA ⟨[], [], false, false⟩ 'n').2.2.1 rfl rfl⟩

/-- C3 counterexample: in the concrete system `sysA` the command text
after the hash sigil, `echo hi`, does produce `hi` and a newline on
stdout with nothing on stderr, yet rendering the hash-echo-hi placeholder
line yields only a newline, not `hi` and a newline — because the code
passes the whole body including the hash to the shell, where it is a
comment producing no output. -/
theorem C3_sigil_counterexample :
    sysA.sh "echo hi".data = some ("hi\n".data, "".data)
  ∧ sysA.sh "#echo hi".data = some ("".data, "".data)
  ∧ parse_line sysA "\x7b#echo hi\x7d".data = .ok "\n".data
  ∧ "\n".data ≠ "hi\n".data :=
  ⟨rfl, rfl, rfl, by decide⟩

/-- C3 (amended): the placeholder body is passed to the shell whole,
including the leading hash; when that executed command produces `hi` and
a newline on stdout and nothing on stderr, rendering the line consisting
of the hash-echo-hi placeholder succeeds with `hi` and a newline, the
captured stdout being trimmed of trailing whitespace before splicing. -/
theorem C3_shell_whole_body (sys : Sys)
    (h : sys.sh "#echo hi".data = some ("hi\n".data, "".data)) :
    parse_line sys "\x7b#echo hi\x7d".data = .ok "hi\n".data := by
  simp [parse_line, parse_line_loop, parse_line_step, run_sh, h, trimEnd]

/-- Witness for the amended C3 in the concrete system `sysB`. -/
theorem C3_shell_whole_body_witness :
    parse_line sysB "\x7b#echo hi\x7d".data = .ok "hi\n".data :=
  C3_shell_whole_body sysB rfl

/-- C4: the code, unlike the claim, has no dispatch arms for `uptime`,
`pkgs` or `shell` — those keys fall through to the style table and fail
with `UnknownStyle` — while `username`, `hostname`, `distro` and `kernel`
do dispatch to their fact providers. -/
theorem C4_missing_fact_dispatch (sys : Sys) :
    replace_builtin_var sys "uptime".data = .error (.UnknownStyle "uptime".data)
  ∧ replace_builtin_var sys "pkgs".data = .error (.UnknownStyle "pkgs".data)
  ∧ replace_builtin_var sys "shell".data = .error (.UnknownStyle "shell".data)
  ∧ replace_builtin_var sys "username".data = .ok sys.username
  ∧ replace_builtin_var sys "hostname".data = .ok sys.hostname
  ∧ replace_builtin_var sys "distro".data = .ok sys.distro
  ∧ replace_builtin_var sys "kernel".data = .ok sys.kernel :=
  ⟨rfl, rfl, rfl, rfl, rfl, rfl, rfl⟩

/-- C5 counterexample: in the concrete system `sysA`, where the empty
shell command writes nothing to either stream, the line consisting of an
empty placeholder renders successfully to a bare newline — it does not
fail with any unknown-variable error as the claim states. -/
theorem C5_empty_body_counterexample :
    sysA.sh "".data = some ("".data, "".data)
  ∧ parse_line sysA "\x7b\x7d".data = .ok "\n".data :=
  ⟨rfl, rfl⟩

/-- C5 (amended): an empty placeholder body matches no sigil and falls
through to shell execution of the empty command string; when that
execution returns streams (out, err), the line fails with
`CommandExecution` exactly when the trimmed stderr is non-empty and
otherwise succeeds with the trimmed stdout followed by a newline. -/
theorem C5_empty_body_shell (sys : Sys) (out err : List Char)
    (h : sys.sh "".data = some (out, err)) :
    parse_line sys "\x7b\x7d".data =
      (if trimEnd err = [] then .ok (trimEnd out ++ ['\n'])
       else .error (.CommandExecution (trimEnd err))) := by
  by_cases he : trimEnd err = [] <;>
    simp [parse_line, parse_line_loop, parse_line_step, run_sh, h, he]

/-- Witness for the amended C5 in the concrete system `sysA`. -/
theorem C5_empty_body_shell_witness :
    parse_line sysA "\x7b\x7d".data =
      (if trimEnd "".data = [] then .ok (trimEnd "".data ++ ['\n'])
       else .error (.CommandExecution (trimEnd "".data))) :=
  C5_empty_body_shell sysA "".data "".data rfl

/-- C6 counterexample: in the concrete system `sysA` the command `badcmd`
writes a bare newline — a non-empty string — to stderr, yet `run_sh`
succeeds with the stdout instead of failing with `CommandExecution` as
the claim states, because the code trims the stderr before testing it. -/
theorem C6_stderr_counterexample :
    sysA.sh "badcmd".data = some ("out".data, "\n".data)
  ∧ "\n".data ≠ ([] : List Char)
  ∧ run_sh sysA "badcmd".data = .ok "out".data :=
  ⟨rfl, by decide, rfl⟩

/-- C6 (amended): for a shell command whose execution returns streams
(out, err), resolution fails with `CommandExecution` carrying the
trailing-whitespace-trimmed stderr exactly when that trimmed stderr is
non-empty (stdout is then discarded), and otherwise succeeds with the
stdout trimmed of trailing whitespace. -/
theorem C6_run_sh_trimmed_stderr (sys : Sys) (cmd out err : List Char)
    (h : sys.sh cmd = some (out, err)) :
    run_sh sys cmd =
      (if trimEnd err = [] then .ok (trimEnd out)
       else .error (.CommandExecution (trimEnd err))) := by
  by_cases he : trimEnd err = [] <;> simp [run_sh, h, he]

/-- Witness for the amended C6 in the concrete system `sysA`. -/
theorem C6_run_sh_trimmed_stderr_witness :
    run_sh sysA "badcmd".data =
      (if trimEnd "\n".data = [] then .ok (trimEnd "out".data)
       else .error (.CommandExecution (trimEnd "\n".data))) :=
  C6_run_sh_trimmed_stderr sysA "badcmd".data "out".data "\n".data rfl

/-- C7: for every number between 0 and 255, the body `color` followed by
its decimal text resolves to the foreground-color ANSI escape with that
number spliced in, and the body `color256` fails with `UnknownColor`
carrying the offending suffix `256`. -/
theorem C7_color_range (sys : Sys) (n : Nat) (h : n ≤ 255) :
    replace_builtin_var sys ("color".data ++ (Nat.repr n).data) =
      .ok ("\x1B[38;5;".data ++ (Nat.repr n).data ++ "m".data)
  ∧ replace_builtin_var sys "color256".data = .error (.UnknownColor "256".data) := by
  refine ⟨?_, rfl⟩
  rw [replace_builtin_var_color_eq, parse_u8_repr_le n h]

/-- Witness for C7 at the concrete number 5 in the concrete system
`sysA`. -/
theorem C7_color_range_witness :
    replace_builtin_var sysA ("color".data ++ (Nat.repr 5).data) =
      .ok ("\x1B[38;5;".data ++ (Nat.repr 5).data ++ "m".data)
  ∧ replace_builtin_var sysA "color256".data = .error (.UnknownColor "256".data) :=
  C7_color_range sysA 5 (by decide)

/-- C8: a line containing neither an open brace nor a close brace renders
successfully to itself with exactly one newline appended by the
renderer. -/
theorem C8_plain_line_roundtrip (sys : Sys) (line : List Char)
    (h : ∀ c ∈ line, c ≠ '\x7b' ∧ c ≠ '\x7d') :
    parse_line sys line = .ok (line ++ ['\n']) := by
  unfold parse_line
  rw [parse_line_loop_no_braces sys line ⟨[], [], false, false⟩ rfl rfl h]
  simp

/-- Witness for C8 on the concrete line `hello` in the concrete system
`sysA`. -/
theorem C8_plain_line_roundtrip_witness :
    parse_line sysA "hello".data = .ok ("hello".data ++ ['\n']) :=
  C8_plain_line_roundtrip sysA "hello".data (by decide)

/-- C9: the uptime is rendered as the nonzero components among days,
hours and minutes (each pluralised when above one) joined with a comma
and a space, with the fallback `0 minutes` when all three components are
zero. -/
theorem C9_uptime_rendering (secs : Nat) :
    get_uptime secs =
      (if secs / 86400 = 0 ∧ secs % 86400 / 3600 = 0 ∧ secs % 3600 / 60 = 0
       then "0 minutes".data
       else joinCommaSep (uptimeParts secs)) := by
  by_cases hd : secs / 86400 = 0 <;> by_cases hh : secs % 86400 / 3600 = 0 <;>
    by_cases hm : secs % 3600 / 60 = 0 <;>
      simp [get_uptime, uptimeParts, joinCommaSep, hd, hh, hm, Nat.pos_iff_ne_zero,
        List.append_eq_nil,
        show (" day".data : List Char) = [' ', 'd', 'a', 'y'] from rfl,
        show (" hour".data : List Char) = [' ', 'h', 'o', 'u', 'r'] from rfl,
        show (" minute".data : List Char) = [' ', 'm', 'i', 'n', 'u', 't', 'e'] from rfl]

/-- C10: the suffix after `color` is trimmed of surrounding whitespace
before being parsed as the color number, so any suffix whose trim parses
as a number yields that color escape; in particular the body of `color`,
a space and the digit 5 resolves to the color-5 escape, both directly and
through a full placeholder line. -/
theorem C10_color_suffix_trim (sys : Sys) :
    (∀ s : List Char, ∀ n : Nat, parse_u8 (trim s) = some n →
      replace_builtin_var sys ("color".data ++ s) =
        .ok ("\x1B[38;5;".data ++ (Nat.repr n).data ++ "m".data))
  ∧ replace_builtin_var sys "color 5".data = .ok "\x1B[38;5;5m".data
  ∧ parse_line sys "\x7b@color 5\x7d".data = .ok "\x1B[38;5;5m\n".data := by
  refine ⟨?_, rfl, rfl⟩
  intro s n hp
  rw [replace_builtin_var_color_eq, hp]

/-- Witness for C10 on the concrete suffix of a space and the digit 7 in
the concrete system `sysA`. -/
theorem C10_color_suffix_trim_witness :
    replace_builtin_var sysA ("color".data ++ " 7".data) =
      .ok ("\x1B[38;5;".data ++ (Nat.repr 7).data ++ "m".data) :=
  (C10_color_suffix_trim sysA).1 " 7".data 7 (by decide)
